import Mathlib

/-!
Verification of the DP-OCR book-reader core: the debounced button-click
detector (`_detect_click` in `gpio_button_service.py` / `book_reader.py`),
the background processing pipeline (`_processing_worker`,
`process_trigger` in `book_reader.py`, `should_perform_ocr` in
`openai_vision_service.py`), the single-flight run-loop coordination
(`BookReader.run` / `BookReader.process_trigger`) and the callback
notification of `GPIOButtonService`.

Time is modelled in whole milliseconds.  The detector polls the GPIO line
on a 10 ms grid, the status poll loop of `process_trigger` runs on a
30 ms grid, exactly as the `time.sleep` calls in the source prescribe.
The line level and the cooperative stop flag are modelled as boolean
traces indexed by time.  Unbounded `while` loops are given explicit fuel;
every theorem below supplies enough fuel for the scenario it describes,
so the fuel-exhaustion branch is never relied upon.
-/

namespace DPOCR

/-- Outcome of the release-wait loop inside `_detect_click`
(`while self._read_gpio(): if not self.running: return False;
time.sleep(0.01)`). -/
inductive WaitOutcome where
  | released : Nat → WaitOutcome
  | aborted : WaitOutcome
  | fuelOut : WaitOutcome
deriving DecidableEq, Repr

/-- The release-wait loop of `_detect_click`: starting at time `t`, read the
line every 10 ms; when the line reads de-asserted, report the time of that
read; while asserted, check the cooperative stop flag (`self.running`) and
abort when it is cleared. -/
def release_wait (level running : Nat → Bool) : Nat → Nat → WaitOutcome
  | _, 0 => WaitOutcome.fuelOut
  | t, fuel + 1 =>
    if level t then
      if running t then release_wait level running (t + 10) fuel
      else WaitOutcome.aborted
    else WaitOutcome.released t

/-- `_detect_click` (identical in `gpio_button_service.py` lines 294-346 and
`book_reader.py` lines 432-474), invoked at time `t` with debounce delay
`D` ms.  Sequence: sample the line (not asserted: no click); record
`press_time := t`; sleep `D`; re-sample (not asserted: noise, no click);
release-wait loop; sleep `D`; re-sample (asserted again: bounce, no click);
`press_duration := release_time - press_time`; report a click iff
`0.1 s ≤ press_duration ≤ 5.0 s`.  Returns the computed duration when a
click is reported, `none` otherwise. -/
def detect_click (level running : Nat → Bool) (D t fuel : Nat) : Option Nat :=
  if level t = false then none
  else if level (t + D) = false then none
  else
    match release_wait level running (t + D) fuel with
    | WaitOutcome.aborted => none
    | WaitOutcome.fuelOut => none
    | WaitOutcome.released r =>
      if level (r + D) = true then none
      else
        let dur := r + D - t
        if 100 ≤ dur ∧ dur ≤ 5000 then some dur else none

/-- Level trace of a clean press: the line is asserted exactly on
`[t0, t0 + d)` (stably pressed for `d` ms, stably released before and
after). -/
def cleanPress (t0 d : Nat) : Nat → Bool :=
  fun s => decide (t0 ≤ s ∧ s < t0 + d)

/-- `n` rounded up to the next multiple of the 10 ms poll interval. -/
def roundUp10 (n : Nat) : Nat := ((n + 9) / 10) * 10

theorem release_wait_finds (level running : Nat → Bool) (k : Nat) :
    ∀ t fuel, (∀ j, j < k → level (t + 10 * j) = true) →
    (∀ j, j < k → running (t + 10 * j) = true) →
    level (t + 10 * k) = false → k < fuel →
    release_wait level running t fuel = WaitOutcome.released (t + 10 * k) := by
  induction k with
  | zero =>
    intro t fuel _ _ hk hfuel
    cases fuel with
    | zero => omega
    | succ n =>
      simp only [Nat.mul_zero, Nat.add_zero] at hk
      simp [release_wait, hk]
  | succ k ih =>
    intro t fuel hlev hrun hk hfuel
    cases fuel with
    | zero => omega
    | succ n =>
      have h0 : level (t + 10 * 0) = true := hlev 0 (Nat.succ_pos k)
      simp only [Nat.mul_zero, Nat.add_zero] at h0
      have hr0 : running (t + 10 * 0) = true := hrun 0 (Nat.succ_pos k)
      simp only [Nat.mul_zero, Nat.add_zero] at hr0
      have step := ih (t + 10) n
        (fun j hj => by
          have := hlev (j + 1) (by omega)
          have harith : t + 10 * (j + 1) = t + 10 + 10 * j := by ring
          rwa [harith] at this)
        (fun j hj => by
          have := hrun (j + 1) (by omega)
          have harith : t + 10 * (j + 1) = t + 10 + 10 * j := by ring
          rwa [harith] at this)
        (by
          have harith : t + 10 * (k + 1) = t + 10 + 10 * k := by ring
          rwa [harith] at hk)
        (by omega)
      have harith : t + 10 + 10 * k = t + 10 * (k + 1) := by ring
      rw [harith] at step
      simp [release_wait, h0, hr0, step]

theorem release_wait_aborts (level running : Nat → Bool) (k : Nat) :
    ∀ t fuel, (∀ j, j ≤ k → level (t + 10 * j) = true) →
    running (t + 10 * k) = false → k < fuel →
    release_wait level running t fuel = WaitOutcome.aborted := by
  induction k with
  | zero =>
    intro t fuel hlev hstop hfuel
    cases fuel with
    | zero => omega
    | succ n =>
      have h0 : level (t + 10 * 0) = true := hlev 0 (Nat.le_refl 0)
      simp only [Nat.mul_zero, Nat.add_zero] at h0 hstop
      simp [release_wait, h0, hstop]
  | succ k ih =>
    intro t fuel hlev hstop hfuel
    cases fuel with
    | zero => omega
    | succ n =>
      have h0 : level (t + 10 * 0) = true := hlev 0 (Nat.zero_le _)
      simp only [Nat.mul_zero, Nat.add_zero] at h0
      cases hr0 : running t with
      | false => simp [release_wait, h0, hr0]
      | true =>
        have step := ih (t + 10) n
          (fun j hj => by
            have := hlev (j + 1) (by omega)
            have harith : t + 10 * (j + 1) = t + 10 + 10 * j := by ring
            rwa [harith] at this)
          (by
            have harith : t + 10 * (k + 1) = t + 10 + 10 * k := by ring
            rwa [harith] at hstop)
          (by omega)
        simp [release_wait, h0, hr0, step]

/-- C2 counterexample: with the source's default debounce delay of 0.2 s
(200 ms), a clean press of true duration 0.15 s — inside the claimed
interval [0.1 s, 5.0 s] — is reported as NO click: the press has already
ended when the line is re-sampled after the press-side debounce sleep, so
`_detect_click` discards it as noise. -/
theorem clean_press_in_range_discarded :
    detect_click (cleanPress 0 150) (fun _ => true) 200 0 50 = none ∧
    100 ≤ 150 ∧ 150 ≤ 5000 := by
  constructor
  · decide
  · omega

/-- C2 (amended): for a clean press of true duration `d` ms and debounce
delay `D` ms, `_detect_click` reports a click iff `D < d` (the press
survives the press-side debounce re-sample) and the computed duration
`2*D + roundUp10 (d - D)` — which approximates `d + D`, not `d` — lies in
[0.1 s, 5.0 s]; the reported duration is that computed value, and in all
other cases no click is reported. -/
theorem detect_click_clean_press (t0 d D fuel : Nat)
    (hfuel : (d - D + 9) / 10 < fuel) :
    detect_click (cleanPress t0 d) (fun _ => true) D t0 fuel =
      if D < d ∧ 100 ≤ 2 * D + roundUp10 (d - D) ∧
          2 * D + roundUp10 (d - D) ≤ 5000
      then some (2 * D + roundUp10 (d - D)) else none := by
  by_cases hd : D < d
  · -- the press survives the press-side debounce re-sample
    have hpress : cleanPress t0 d t0 = true := by
      simp [cleanPress]; omega
    have hconf : cleanPress t0 d (t0 + D) = true := by
      simp [cleanPress]; omega
    set k := (d - D + 9) / 10 with hkdef
    have hk10 : d - D ≤ 10 * k ∧ 10 * k < d - D + 10 := by
      constructor <;> omega
    have hwait : release_wait (cleanPress t0 d) (fun _ => true) (t0 + D) fuel
        = WaitOutcome.released (t0 + D + 10 * k) := by
      apply release_wait_finds
      · intro j hj
        simp [cleanPress]
        omega
      · intro j hj
        rfl
      · simp [cleanPress]
        omega
      · omega
    have hresample : cleanPress t0 d (t0 + D + 10 * k + D) = false := by
      simp [cleanPress]
      omega
    have hdur : t0 + D + 10 * k + D - t0 = 2 * D + roundUp10 (d - D) := by
      simp only [roundUp10]
      omega
    simp only [detect_click, hpress, hconf, hwait, hresample, hdur]
    have hcond : (100 ≤ 2 * D + roundUp10 (d - D) ∧
        2 * D + roundUp10 (d - D) ≤ 5000) ↔
        (D < d ∧ 100 ≤ 2 * D + roundUp10 (d - D) ∧
        2 * D + roundUp10 (d - D) ≤ 5000) := by
      constructor
      · intro h
        exact ⟨hd, h⟩
      · intro h
        exact h.2
    simp only [Bool.false_eq_true, if_false, reduceCtorEq]
    split
    · rename_i h
      rw [if_pos (hcond.mp h)]
    · rename_i h
      rw [if_neg (fun hc => h (hcond.mpr hc))]
  · -- the press ends at or before the debounce re-sample: no click
    rw [if_neg (fun hc => hd hc.1)]
    by_cases hd0 : d = 0
    · have hpress : cleanPress t0 d t0 = false := by
        simp [cleanPress]; omega
      simp [detect_click, hpress]
    · have hpress : cleanPress t0 d t0 = true := by
        simp [cleanPress]; omega
      have hconf : cleanPress t0 d (t0 + D) = false := by
        simp [cleanPress]; omega
      simp [detect_click, hpress, hconf]

/-- Witness for C2 (amended): a clean 0.5 s press with the default 0.2 s
debounce delay is reported as one click with computed duration 0.7 s. -/
theorem detect_click_clean_press_witness :
    detect_click (cleanPress 0 500) (fun _ => true) 200 0 40 = some 700 := by
  have h := detect_click_clean_press 0 500 200 40 (by decide)
  rw [h]
  decide

/-- C3: a bounce cancels the click.  If the invocation confirms the press,
the release-wait loop sees the line de-asserted at its `k`-th poll, but the
line is asserted again when re-sampled after the release-side debounce
sleep, then `_detect_click` returns with no click reported for that
invocation (cancellation — the invocation ends, it does not restart the
debounce timing). -/
theorem detect_click_bounce_cancels (level running : Nat → Bool)
    (D t k fuel : Nat)
    (hpress : level t = true)
    (hlev : ∀ j, j < k → level (t + D + 10 * j) = true)
    (hrun : ∀ j, j < k → running (t + D + 10 * j) = true)
    (hrel : level (t + D + 10 * k) = false)
    (hfuel : k < fuel)
    (hbounce : level (t + D + 10 * k + D) = true) :
    detect_click level running D t fuel = none := by
  by_cases hk0 : k = 0
  · subst hk0
    simp only [Nat.mul_zero, Nat.add_zero] at hrel
    simp [detect_click, hpress, hrel]
  · have hconf : level (t + D) = true := by
      have := hlev 0 (Nat.pos_of_ne_zero hk0)
      simpa using this
    have hwait : release_wait level running (t + D) fuel
        = WaitOutcome.released (t + D + 10 * k) :=
      release_wait_finds level running k (t + D) fuel hlev hrun hrel hfuel
    simp [detect_click, hpress, hconf, hwait, hbounce]

/-- Witness for C3: press on [0 ms, 300 ms), release, re-press on
[480 ms, 600 ms); with debounce 200 ms the release poll fires at 300 ms and
the re-sample at 500 ms sees the line asserted again: no click. -/
theorem detect_click_bounce_witness :
    detect_click
      (fun s => decide (s < 300) || (decide (480 ≤ s) && decide (s < 600)))
      (fun _ => true) 200 0 20 = none := by
  exact detect_click_bounce_cancels
    (fun s => decide (s < 300) || (decide (480 ≤ s) && decide (s < 600)))
    (fun _ => true) 200 0 10 20
    (by decide) (by decide) (fun j hj => rfl) (by decide) (by decide)
    (by decide)

/-- C9: the cooperative stop flag is honoured during the unbounded
release-wait.  If the line stays asserted on every 10 ms poll up to the
`k`-th one and `self.running` reads false at that poll iteration, the wait
is aborted and `_detect_click` returns immediately with no click, so
shutdown cannot hang in the release-wait. -/
theorem detect_click_stop_flag_aborts (level running : Nat → Bool)
    (D t k fuel : Nat)
    (hpress : level t = true)
    (hlev : ∀ j, j ≤ k → level (t + D + 10 * j) = true)
    (hstop : running (t + D + 10 * k) = false)
    (hfuel : k < fuel) :
    detect_click level running D t fuel = none := by
  have hconf : level (t + D) = true := by
    have := hlev 0 (Nat.zero_le k)
    simpa using this
  have hwait : release_wait level running (t + D) fuel
      = WaitOutcome.aborted :=
    release_wait_aborts level running k (t + D) fuel hlev hstop hfuel
  simp [detect_click, hpress, hconf, hwait]

/-- Witness for C9: the button is held forever, the stop flag clears at
250 ms; the detector aborts and reports no click. -/
theorem detect_click_stop_flag_witness :
    detect_click (fun _ => true) (fun s => decide (s < 250)) 200 0 10
      = none := by
  exact detect_click_stop_flag_aborts (fun _ => true)
    (fun s => decide (s < 250)) 200 0 5 10
    rfl (fun j hj => rfl) (by decide) (by decide)

/-!
The processing pipeline.  `_processing_worker` (`book_reader.py` lines
476-569) runs in a background thread; its observable behaviour is the
final content of the shared `result_dict`, whether the OpenAI preanalysis
was attempted and whether (and with which effective prompt) the OCR
request `send_to_ocr_api` was attempted.  External calls are modelled as
environment fields: a call either returns a value or raises a Python
exception. -/

/-- Python exceptions distinguished by the worker's `except` clauses:
`requests.exceptions.Timeout`, `requests.exceptions.ConnectionError`,
other `requests.exceptions.RequestException`s, and any other exception
(carrying its class name). -/
inductive PyExn where
  | timeout : String → PyExn
  | connectionError : String → PyExn
  | requestException : String → PyExn
  | other : String → String → PyExn
deriving DecidableEq, Repr

/-- The `error_type` string the worker's handlers record for each caught
exception (`book_reader.py` lines 536-569): the three `requests` handlers
write fixed strings, the catch-all writes `type(e).__name__`. -/
def exn_error_type : PyExn → String
  | PyExn.timeout _ => "Timeout"
  | PyExn.connectionError _ => "ConnectionError"
  | PyExn.requestException _ => "RequestException"
  | PyExn.other ty _ => ty

/-- The `str(e)` message recorded in `result_dict['error']`. -/
def exn_message : PyExn → String
  | PyExn.timeout m => m
  | PyExn.connectionError m => m
  | PyExn.requestException m => m
  | PyExn.other _ m => m

/-- Result of `OpenAIVisionService.analyze_image`: either the error
dictionary it returns after catching an internal failure, or a normal
analysis with `has_text`, the optional `suggested_prompt` and the
`scene_type`. -/
inductive AnalysisResult where
  | err : String → AnalysisResult
  | ok : Bool → Option String → String → AnalysisResult
deriving DecidableEq, Repr

/-- The default OCR instruction used on fail-open and as the
`suggested_prompt` fallback in `should_perform_ocr`. -/
def defaultPrompt : String := "<image>\nFree OCR."

/-- `OpenAIVisionService.should_perform_ocr` (`openai_vision_service.py`
lines 253-292): an error dictionary is fail-open — perform OCR with the
default instruction; `has_text` true returns the suggested prompt (with
the default as `dict.get` fallback); `has_text` false returns the skip
reason built from the scene type. -/
def should_perform_ocr : AnalysisResult → Bool × String
  | AnalysisResult.err _ => (true, defaultPrompt)
  | AnalysisResult.ok hasText sp scene =>
    if hasText then (true, sp.getD defaultPrompt)
    else (false, "圖像不包含文字（場景類型: " ++ scene ++ "）")

/-- The shared `result_dict` written by the worker and read by
`process_trigger`. -/
structure ResultDict where
  status : String
  ocrText : Option String
  error : Option String
  errorType : Option String
  skipReason : Option String
deriving DecidableEq, Repr

/-- `result_dict` as initialised in `process_trigger` (lines 875-881). -/
def initResult : ResultDict :=
  { status := "starting", ocrText := none, error := none,
    errorType := none, skipReason := none }

/-- One worker execution: the final `result_dict`, whether the OpenAI
preanalysis step ran, and — when `send_to_ocr_api` was attempted — the
effective prompt it was invoked with. -/
structure WorkerTrace where
  result : ResultDict
  analysisInvoked : Bool
  ocrPrompt : Option String
deriving DecidableEq, Repr

/-- Environment of one worker run: configuration flags, the configured
fallback OCR prompt, and the behaviour of the two external calls. -/
structure WorkerEnv where
  enablePreanalysis : Bool
  hasService : Bool
  cfgPrompt : String
  analysis : Except PyExn AnalysisResult
  ocr : Except PyExn (Option String)

/-- An exception handler of the worker: sets `status` to `'error'` and
records `error` and `error_type`, leaving the other keys as they were. -/
def apply_handler (r : ResultDict) (e : PyExn) : ResultDict :=
  { r with
    status := "error",
    error := some (exn_message e),
    errorType := some (exn_error_type e) }

/-- Prompt selection inside `send_to_ocr_api` (line 806):
`custom_prompt if custom_prompt else self.ocr_prompt` — a `None` or empty
custom prompt falls back to the configured prompt. -/
def effective_prompt (cfg : String) : Option String → String
  | some p => if p.isEmpty then cfg else p
  | none => cfg

/-- Step 2 of the worker (lines 520-534): set status `'ocr_processing'`,
call `send_to_ocr_api`; a non-`None` text gives `'completed'`, `None`
gives `'error'`/`'OCRError'`, and a raised exception reaches the handlers. -/
def ocr_step (env : WorkerEnv) (r : ResultDict) (ai : Bool)
    (cp : Option String) : WorkerTrace :=
  let r2 := { r with status := "ocr_processing" }
  let p := effective_prompt env.cfgPrompt cp
  match env.ocr with
  | Except.error e => ⟨apply_handler r2 e, ai, some p⟩
  | Except.ok (some text) =>
    ⟨{ r2 with
       status := "completed",
       ocrText := some text }, ai, some p⟩
  | Except.ok none =>
    ⟨{ r2 with
       status := "error",
       error := some "OCR API 返回 None",
       errorType := some "OCRError" }, ai, some p⟩

/-- `BookReader._processing_worker` (lines 476-569).  If preanalysis is
enabled, the service exists and no custom prompt was passed, run the
analysis: a raised exception is caught by the handlers; a skip verdict
records `'skipped'` with the reason and returns without OCR; otherwise the
suggested prompt is adopted.  Then the OCR step runs.  The function is
total: every exception of the external calls is absorbed by a handler. -/
def processing_worker (env : WorkerEnv) (customPrompt : Option String) :
    WorkerTrace :=
  if env.enablePreanalysis && env.hasService && customPrompt.isNone then
    let r1 := { initResult with status := "openai_analysis" }
    match env.analysis with
    | Except.error e => ⟨apply_handler r1 e, true, none⟩
    | Except.ok ares =>
      let verdict := should_perform_ocr ares
      if verdict.1 then ocr_step env r1 true (some verdict.2)
      else
        ⟨{ r1 with
           status := "skipped",
           skipReason := some verdict.2 }, true, none⟩
  else
    ocr_step env initResult false customPrompt

/-- The two audio cues (`success_sound` / `error_sound`). -/
inductive Sound where
  | success : Sound
  | failure : Sound
deriving DecidableEq, Repr

/-- Observable outcome of `process_trigger`: which cue was played (if any)
and the worker execution it ran (none when capture failed and the worker
was never started). -/
structure TriggerOutcome where
  sound : Option Sound
  worker : Option WorkerTrace
deriving DecidableEq, Repr

/-- Python `str.strip()` whitespace predicate (ASCII whitespace). -/
def pyIsSpace (c : Char) : Bool :=
  c == ' ' || c == '\t' || c == '\n' || c == '\r' ||
  c == '\x0b' || c == '\x0c'

/-- Python `str.strip()`: drop leading and trailing whitespace. -/
def pyStrip (s : String) : String :=
  String.mk (((s.toList.dropWhile pyIsSpace).reverse.dropWhile
    pyIsSpace).reverse)

/-- `BookReader.process_trigger` (lines 861-947).  A failed capture plays
the failure cue and returns before any worker is started.  Otherwise the
worker runs to completion (the status poll loop and the join are modelled
in `run_loop_schedule`), and the final status selects the feedback:
`'skipped'` returns silently; `'completed'` plays the success cue iff the
text is non-empty and non-blank (`if text and text.strip()`), otherwise
the failure cue; `'error'` and any unknown status play the failure cue. -/
def process_trigger (captureOk : Bool) (env : WorkerEnv) : TriggerOutcome :=
  if captureOk = false then ⟨some Sound.failure, none⟩
  else
    let tr := processing_worker env none
    let snd : Option Sound :=
      if tr.result.status = "skipped" then none
      else if tr.result.status = "completed" then
        match tr.result.ocrText with
        | some t =>
          if !t.isEmpty && !(pyStrip t).isEmpty then some Sound.success
          else some Sound.failure
        | none => some Sound.failure
      else some Sound.failure
    ⟨snd, some tr⟩

theorem ocr_step_status (env : WorkerEnv) (r : ResultDict) (ai : Bool)
    (cp : Option String) :
    (ocr_step env r ai cp).result.status = "completed" ∨
    (ocr_step env r ai cp).result.status = "error" := by
  unfold ocr_step
  cases h : env.ocr with
  | error e => simp [apply_handler]
  | ok t => cases t <;> simp

theorem ocr_step_prompt (env : WorkerEnv) (r : ResultDict) (ai : Bool)
    (cp : Option String) :
    (ocr_step env r ai cp).ocrPrompt =
      some (effective_prompt env.cfgPrompt cp) := by
  unfold ocr_step
  cases h : env.ocr with
  | error e => simp
  | ok t => cases t <;> simp

theorem processing_worker_terminal (env : WorkerEnv) (cp : Option String) :
    (processing_worker env cp).result.status = "skipped" ∨
    (processing_worker env cp).result.status = "completed" ∨
    (processing_worker env cp).result.status = "error" := by
  unfold processing_worker
  split
  · cases h : env.analysis with
    | error e => simp [apply_handler]
    | ok ares =>
      simp only
      split
      · rcases ocr_step_status env
          { initResult with status := "openai_analysis" } true
          (some (should_perform_ocr ares).2) with hc | hc
        · right; left; exact hc
        · right; right; exact hc
      · simp
  · rcases ocr_step_status env initResult false cp with hc | hc
    · right; left; exact hc
    · right; right; exact hc

theorem defaultPrompt_nonempty : defaultPrompt.isEmpty = false := by decide

theorem pyStrip_empty_of_empty (t : String) (h : t.isEmpty = true) :
    (pyStrip t).isEmpty = true := by
  have ht : t = "" := (String.isEmpty_iff t).mp h
  subst ht
  rfl

/-- C4: fail-open on classifier error.  When the analysis returns an error
dictionary, `should_perform_ocr` returns true with the default instruction,
and the worker still invokes the OCR request with exactly that default
instruction instead of aborting the run. -/
theorem classifier_error_fail_open (env : WorkerEnv) (m : String)
    (hpre : env.enablePreanalysis = true)
    (hsvc : env.hasService = true)
    (hana : env.analysis = Except.ok (AnalysisResult.err m)) :
    should_perform_ocr (AnalysisResult.err m) = (true, defaultPrompt) ∧
    (processing_worker env none).ocrPrompt = some defaultPrompt := by
  refine ⟨rfl, ?_⟩
  unfold processing_worker
  rw [hpre, hsvc, hana]
  simp [should_perform_ocr, ocr_step_prompt, effective_prompt,
    defaultPrompt_nonempty]

/-- Witness for C4: a concrete run with preanalysis enabled whose analysis
errors still sends the OCR request with the default instruction. -/
theorem classifier_error_fail_open_witness :
    (processing_worker
      ⟨true, true, "cfg", Except.ok (AnalysisResult.err "boom"),
       Except.ok (some "x")⟩ none).ocrPrompt = some defaultPrompt :=
  (classifier_error_fail_open
    ⟨true, true, "cfg", Except.ok (AnalysisResult.err "boom"),
     Except.ok (some "x")⟩ "boom" rfl rfl rfl).2

/-- C5: a classifier verdict of `has_text = false` ends the run in the
`'skipped'` status with the recorded skip reason; the OCR request is never
made, and `process_trigger` returns silently — no audio cue of any kind. -/
theorem classifier_no_text_skips (env : WorkerEnv) (sp : Option String)
    (scene : String)
    (hpre : env.enablePreanalysis = true)
    (hsvc : env.hasService = true)
    (hana : env.analysis = Except.ok (AnalysisResult.ok false sp scene)) :
    (processing_worker env none).result.status = "skipped" ∧
    (processing_worker env none).result.skipReason =
      some ("圖像不包含文字（場景類型: " ++ scene ++ "）") ∧
    (processing_worker env none).ocrPrompt = none ∧
    (process_trigger true env).sound = none := by
  have hw : processing_worker env none =
      ⟨{ initResult with
         status := "skipped",
         skipReason :=
           some ("圖像不包含文字（場景類型: " ++ scene ++ "）") },
       true, none⟩ := by
    unfold processing_worker
    rw [hpre, hsvc, hana]
    simp [should_perform_ocr, initResult]
  refine ⟨by rw [hw], by rw [hw], by rw [hw], ?_⟩
  unfold process_trigger
  rw [hw]
  simp [initResult]

/-- Witness for C5: a concrete no-text run reaches `'skipped'` and plays
no cue. -/
theorem classifier_no_text_skips_witness :
    (processing_worker
      ⟨true, true, "cfg",
       Except.ok (AnalysisResult.ok false none "街道"),
       Except.ok (some "x")⟩ none).result.status = "skipped" ∧
    (process_trigger true
      ⟨true, true, "cfg",
       Except.ok (AnalysisResult.ok false none "街道"),
       Except.ok (some "x")⟩).sound = none := by
  have h := classifier_no_text_skips
    ⟨true, true, "cfg", Except.ok (AnalysisResult.ok false none "街道"),
     Except.ok (some "x")⟩ none "街道" rfl rfl rfl
  exact ⟨h.1, h.2.2.2⟩

theorem worker_ocr_ok (env : WorkerEnv) (t : String)
    (hocr : env.ocr = Except.ok (some t))
    (hreach : ((processing_worker env none).ocrPrompt).isSome = true) :
    (processing_worker env none).result.status = "completed" ∧
    (processing_worker env none).result.ocrText = some t := by
  unfold processing_worker at hreach ⊢
  split at hreach
  · rename_i hcond
    rw [hcond]
    cases hana : env.analysis with
    | error e => rw [hana] at hreach; simp at hreach
    | ok ares =>
      rw [hana] at hreach
      simp only at hreach ⊢
      split at hreach
      · rename_i hv
        rw [if_pos hv]
        unfold ocr_step
        rw [hocr]
        simp
      · rename_i hv
        simp at hreach
  · rename_i hcond
    rw [if_neg hcond]
    unfold ocr_step
    rw [hocr]
    simp

/-- C6: when the OCR request succeeds, the terminal outcome is the
success cue with the surfaced text exactly when the returned text is
non-empty after stripping whitespace (the run's `'completed'` status with
non-blank text), and a blank text yields the failure cue (the
empty-result failure) instead of the success cue. -/
theorem ocr_success_blankness (env : WorkerEnv) (t : String)
    (hocr : env.ocr = Except.ok (some t))
    (hreach : ((processing_worker env none).ocrPrompt).isSome = true) :
    (processing_worker env none).result.status = "completed" ∧
    (processing_worker env none).result.ocrText = some t ∧
    ((process_trigger true env).sound = some Sound.success ↔
      (pyStrip t).isEmpty = false) ∧
    ((pyStrip t).isEmpty = true →
      (process_trigger true env).sound = some Sound.failure) := by
  obtain ⟨hst, hot⟩ := worker_ocr_ok env t hocr hreach
  have hsound : (process_trigger true env).sound =
      (if !t.isEmpty && !(pyStrip t).isEmpty then some Sound.success
       else some Sound.failure) := by
    unfold process_trigger
    simp [hst, hot]
  refine ⟨hst, hot, ?_, ?_⟩
  · rw [hsound]
    cases hb : (pyStrip t).isEmpty with
    | false =>
      have htne : t.isEmpty = false := by
        cases hte : t.isEmpty with
        | false => rfl
        | true => rw [pyStrip_empty_of_empty t hte] at hb; exact hb
      simp [htne, hb]
    | true => simp [hb]
  · intro hb
    rw [hsound]
    simp [hb]

/-- Witness for C6: a successful OCR run returning `"Hello"` is completed
and plays the success cue. -/
theorem ocr_success_blankness_witness :
    (processing_worker
      ⟨false, false, "cfg", Except.ok (AnalysisResult.ok true none "x"),
       Except.ok (some "Hello")⟩ none).result.status = "completed" ∧
    (process_trigger true
      ⟨false, false, "cfg", Except.ok (AnalysisResult.ok true none "x"),
       Except.ok (some "Hello")⟩).sound = some Sound.success := by
  have h := ocr_success_blankness
    ⟨false, false, "cfg", Except.ok (AnalysisResult.ok true none "x"),
     Except.ok (some "Hello")⟩ "Hello" rfl rfl
  exact ⟨h.1, h.2.2.1.mpr (by decide)⟩

/-- C7: the worker is total — every exception of its external calls is
absorbed at the worker boundary into a terminal status, never propagating
out of the worker function; a raised OCR transport/protocol error is
recorded as the `'error'` status with `error_type` given by the handler
mapping: `Timeout ↦ 'Timeout'`, `ConnectionError ↦ 'ConnectionError'`,
other `RequestException`s ↦ `'RequestException'` (the protocol-error
kind), anything else ↦ its class name (the unknown kind); a raised
analysis-step exception is recorded the same way. -/
theorem worker_catches_all (env : WorkerEnv) (cp : Option String) :
    ((processing_worker env cp).result.status = "skipped" ∨
     (processing_worker env cp).result.status = "completed" ∨
     (processing_worker env cp).result.status = "error") ∧
    (∀ e, env.ocr = Except.error e →
      ((processing_worker env cp).ocrPrompt).isSome = true →
      (processing_worker env cp).result.status = "error" ∧
      (processing_worker env cp).result.errorType =
        some (exn_error_type e)) ∧
    (∀ e, env.analysis = Except.error e →
      (env.enablePreanalysis && env.hasService && cp.isNone) = true →
      (processing_worker env cp).result.status = "error" ∧
      (processing_worker env cp).result.errorType =
        some (exn_error_type e)) ∧
    (∀ m, exn_error_type (PyExn.timeout m) = "Timeout") ∧
    (∀ m, exn_error_type (PyExn.connectionError m) = "ConnectionError") ∧
    (∀ m, exn_error_type (PyExn.requestException m) = "RequestException") ∧
    (∀ ty m, exn_error_type (PyExn.other ty m) = ty) := by
  refine ⟨processing_worker_terminal env cp, ?_, ?_,
    fun m => rfl, fun m => rfl, fun m => rfl, fun ty m => rfl⟩
  · intro e hocr hreach
    unfold processing_worker at hreach ⊢
    split at hreach
    · rename_i hcond
      rw [hcond]
      cases hana : env.analysis with
      | error e2 => rw [hana] at hreach; simp at hreach
      | ok ares =>
        rw [hana] at hreach
        simp only at hreach ⊢
        split at hreach
        · rename_i hv
          rw [if_pos hv]
          unfold ocr_step
          rw [hocr]
          simp [apply_handler]
        · rename_i hv
          simp at hreach
    · rename_i hcond
      rw [if_neg hcond]
      unfold ocr_step
      rw [hocr]
      simp [apply_handler]
  · intro e hana hcond
    unfold processing_worker
    rw [hcond, hana]
    simp [apply_handler]

/-- Witness for C7: a run whose OCR call raises `requests.Timeout` ends in
the `'error'` status with `error_type = 'Timeout'`. -/
theorem worker_catches_all_witness :
    (processing_worker
      ⟨false, false, "cfg", Except.ok (AnalysisResult.err "m"),
       Except.error (PyExn.timeout "slow")⟩ none).result.status = "error" ∧
    (processing_worker
      ⟨false, false, "cfg", Except.ok (AnalysisResult.err "m"),
       Except.error (PyExn.timeout "slow")⟩ none).result.errorType =
      some "Timeout" := by
  have h := (worker_catches_all
    ⟨false, false, "cfg", Except.ok (AnalysisResult.err "m"),
     Except.error (PyExn.timeout "slow")⟩ none).2.1
    (PyExn.timeout "slow") rfl rfl
  exact ⟨h.1, h.2⟩

/-- C8: when frame capture fails, `process_trigger` plays the failure cue
and returns before starting the processing worker, so neither the
classifier nor the OCR client is ever invoked for that trigger (the
capture-error failure outcome). -/
theorem capture_failure_no_stages (env : WorkerEnv) :
    process_trigger false env = ⟨some Sound.failure, none⟩ := rfl

/-!
Coordination: `process_trigger` starts one background worker thread and
then polls `processing_thread.is_alive()` every 30 ms in the foreground,
joining the thread once the poll reads dead; only after that does it
return to `BookReader.run`, whose loop sleeps 10 ms before polling
`_detect_click` again.  A worker thread is abstracted by its liveness
trace `alive : Nat → Bool`; the poll loop is the fuelled search below. -/

/-- The status poll loop of `process_trigger` (lines 900-907):
`while processing_thread.is_alive(): ...; time.sleep(0.03)` followed by
`processing_thread.join(timeout=1.0)` — returns the time of the first
30 ms poll that reads the thread as dead (the join of an already-dead
thread returns immediately), or `none` when the fuel runs out. -/
def status_poll_wait (alive : Nat → Bool) : Nat → Nat → Option Nat
  | _, 0 => none
  | t, fuel + 1 =>
    if alive t then status_poll_wait alive (t + 30) fuel else some t

/-- The sequential run loop of `BookReader.run` (lines 992-1007): each
accepted click calls `process_trigger` synchronously; the next
`_detect_click` poll happens at the earliest 10 ms (`time.sleep(0.01)`)
after `process_trigger` returned.  Given the liveness trace of each
accepted click's worker, returns the (start, return) interval of every
run, or `none` if some poll loop ran out of fuel. -/
def run_loop_schedule (fuel : Nat) : Nat → List (Nat → Bool) →
    Option (List (Nat × Nat))
  | _, [] => some []
  | t, w :: ws =>
    match status_poll_wait w t fuel with
    | none => none
    | some r =>
      match run_loop_schedule fuel (r + 10) ws with
      | none => none
      | some rest => some ((t, r) :: rest)

theorem status_poll_wait_spec (alive : Nat → Bool) :
    ∀ fuel t r, status_poll_wait alive t fuel = some r →
    alive r = false ∧ t ≤ r := by
  intro fuel
  induction fuel with
  | zero => intro t r h; simp [status_poll_wait] at h
  | succ n ih =>
    intro t r h
    unfold status_poll_wait at h
    cases ha : alive t with
    | true =>
      rw [ha] at h
      simp only [if_true] at h
      obtain ⟨h1, h2⟩ := ih (t + 30) r h
      exact ⟨h1, by omega⟩
    | false =>
      rw [ha] at h
      simp only [Bool.false_eq_true, if_false, Option.some.injEq] at h
      subst h
      exact ⟨ha, Nat.le_refl t⟩

theorem run_loop_schedule_start_le (fuel : Nat) :
    ∀ ws t0 l, run_loop_schedule fuel t0 ws = some l →
    ∀ e ∈ l, t0 ≤ e.1 := by
  intro ws
  induction ws with
  | nil =>
    intro t0 l h e he
    unfold run_loop_schedule at h
    simp only [Option.some.injEq] at h
    subst h
    simp at he
  | cons w ws ih =>
    intro t0 l h e he
    unfold run_loop_schedule at h
    cases hw : status_poll_wait w t0 fuel with
    | none => simp [hw] at h
    | some r =>
      simp only [hw] at h
      cases hrest : run_loop_schedule fuel (r + 10) ws with
      | none => simp [hrest] at h
      | some rest =>
        simp only [hrest, Option.some.injEq] at h
        subst h
        obtain ⟨hdead, htr⟩ := status_poll_wait_spec w fuel t0 r hw
        rcases List.mem_cons.mp he with he1 | he2
        · subst he1; exact Nat.le_refl t0
        · have := ih (r + 10) rest hrest e he2
          omega

theorem run_loop_schedule_spec (fuel : Nat) :
    ∀ ws t0 l, run_loop_schedule fuel t0 ws = some l →
    List.Forall₂ (fun w e => w e.2 = false ∧ e.1 ≤ e.2) ws l ∧
    List.Pairwise (fun a b => a.2 < b.1) l := by
  intro ws
  induction ws with
  | nil =>
    intro t0 l h
    unfold run_loop_schedule at h
    simp only [Option.some.injEq] at h
    subst h
    exact ⟨List.Forall₂.nil, List.Pairwise.nil⟩
  | cons w ws ih =>
    intro t0 l h
    unfold run_loop_schedule at h
    cases hw : status_poll_wait w t0 fuel with
    | none => simp [hw] at h
    | some r =>
      simp only [hw] at h
      cases hrest : run_loop_schedule fuel (r + 10) ws with
      | none => simp [hrest] at h
      | some rest =>
        simp only [hrest, Option.some.injEq] at h
        subst h
        obtain ⟨hdead, htr⟩ := status_poll_wait_spec w fuel t0 r hw
        obtain ⟨hf, hp⟩ := ih (r + 10) rest hrest
        refine ⟨List.Forall₂.cons ⟨hdead, htr⟩ hf, ?_⟩
        refine List.Pairwise.cons ?_ hp
        intro b hb
        have := run_loop_schedule_start_le fuel ws (r + 10) rest hrest b hb
        omega

/-- C1: single-flight, join-before-accept.  For every sequence of accepted
triggers the run loop produces ordered, disjoint run intervals: each run's
worker liveness trace reads dead at the run's return time (the status poll
loop exits only on a dead thread, which is then joined), and every later
run starts strictly after an earlier run's return — so a second click can
never start a second run before the first run has reached a terminal
state.  Moreover each run's worker always ends in a terminal status
(`'skipped'`/`'completed'`/`'error'`). -/
theorem single_flight_join_before_accept (ws : List (Nat → Bool))
    (t0 fuel : Nat) (l : List (Nat × Nat))
    (h : run_loop_schedule fuel t0 ws = some l) :
    List.Forall₂ (fun w e => w e.2 = false ∧ e.1 ≤ e.2) ws l ∧
    List.Pairwise (fun a b => a.2 < b.1) l ∧
    (∀ env cp, (processing_worker env cp).result.status = "skipped" ∨
      (processing_worker env cp).result.status = "completed" ∨
      (processing_worker env cp).result.status = "error") := by
  obtain ⟨hf, hp⟩ := run_loop_schedule_spec fuel ws t0 l h
  exact ⟨hf, hp, fun env cp => processing_worker_terminal env cp⟩

/-- Witness for C1: two accepted clicks whose workers die at 5 ms and
99 ms; the schedule is the disjoint ordered pair of intervals
(0, 30), (40, 100). -/
theorem single_flight_witness :
    run_loop_schedule 10 0
      [fun t => decide (t < 5), fun t => decide (t < 100)] =
      some [(0, 30), (40, 100)] ∧
    (List.Forall₂ (fun w e => w e.2 = false ∧ e.1 ≤ e.2)
      [fun t => decide (t < 5), fun t => decide (t < 100)]
      [(0, 30), (40, 100)] ∧
    List.Pairwise (fun a b => a.2 < b.1) [(0, 30), (40, 100)] ∧
    (∀ env cp, (processing_worker env cp).result.status = "skipped" ∨
      (processing_worker env cp).result.status = "completed" ∨
      (processing_worker env cp).result.status = "error")) := by
  refine ⟨by decide, ?_⟩
  exact single_flight_join_before_accept
    [fun t => decide (t < 5), fun t => decide (t < 100)] 0 10
    [(0, 30), (40, 100)] (by decide)

/-!
Callback notification in `GPIOButtonService`: `_notify_callbacks`
(lines 369-375) iterates over the registered callback list in order,
calling each inside a `try`/`except` that logs and continues, and
`_run_loop` (lines 348-367) keeps looping after the notification. -/

/-- A registered callback: an identifier and what invoking it does
(returns normally or raises). -/
structure Callback where
  id : Nat
  behavior : Except PyExn Unit

/-- `GPIOButtonService._notify_callbacks`: invoke every registered
callback in registration order; an exception from one callback is caught
and logged, and iteration continues with the remaining callbacks.
Returns the invocation trace: each invoked callback's id together with
whether it raised. -/
def notify_callbacks : List Callback → List (Nat × Bool)
  | [] => []
  | cb :: rest =>
    match cb.behavior with
    | Except.ok _ => (cb.id, false) :: notify_callbacks rest
    | Except.error _ => (cb.id, true) :: notify_callbacks rest

/-- C10: for every callback list, `_notify_callbacks` invokes each
registered callback exactly once, in registration order, regardless of
which callbacks raise — an exception is caught so all remaining callbacks
are still invoked — and the notification always returns, so the listening
loop that triggered it continues running. -/
theorem notify_callbacks_all_in_order (cbs : List Callback) :
    (notify_callbacks cbs).map Prod.fst = cbs.map Callback.id ∧
    (notify_callbacks cbs).length = cbs.length := by
  induction cbs with
  | nil => exact ⟨rfl, rfl⟩
  | cons cb rest ih =>
    cases hb : cb.behavior with
    | ok u =>
      simp only [notify_callbacks, hb, List.map_cons, List.length_cons]
      exact ⟨by rw [ih.1], by rw [ih.2]⟩
    | error e =>
      simp only [notify_callbacks, hb, List.map_cons, List.length_cons]
      exact ⟨by rw [ih.1], by rw [ih.2]⟩

end DPOCR
